import Mathlib

/-!
Verification of the compliance scorer (`generate_compliance_report` in
`src/app.py`) of the Compliance_LLM repository.

The scorer is a pure function from a list of per-clause assessment records
to a structured compliance report.  Python dictionaries are embedded as
structures; values that may be absent, `None`, or of the wrong type are
embedded with `Option` and a small `PyNum` type distinguishing numeric
values from truthy non-numeric values (on which Python `float` raises).
Python floats are idealised as exact rationals; Python `round` and the
`.1f` / `.2f` format specifiers are modelled as round-half-to-even on
rationals.
-/

set_option allowUnsafeReducibility true
attribute [semireducible] Rat.add Rat.sub Rat.neg Rat.mul Rat.inv Rat.div Rat.ofScientific

namespace ComplianceLLM

/-- A Python value in a numeric position: either an actual number, or a
truthy non-numeric value on which `float(...)` raises (`bad`).  Falsy
non-numeric values (`None`, `""`, `[]`, ...) are swallowed by the
source's `... or 0` coercions and are represented by the absent case of
the surrounding `Option`. -/
inductive PyNum where
  | num (q : ℚ)
  | bad
  deriving DecidableEq

/-- The `calculated_score` dict of a record: keys `percentage`, `total`,
`max`; each key may be absent or hold a `None`-like falsy value (`none`),
a number, or a truthy non-numeric value. -/
structure CalcScore where
  percentage : Option PyNum
  total : Option PyNum
  max : Option PyNum
  deriving DecidableEq

/-- One practice entry of a maturity level (`p.get('text', '')` is the
only field the scorer reads; an absent text is the empty string). -/
structure Practice where
  text : String
  deriving DecidableEq

/-- One entry of a record's `maturity_levels` list. -/
structure MaturityLevel where
  level : Option PyNum
  description : String
  practices : List Practice
  deriving DecidableEq

/-- One assessment record, as consumed by `generate_compliance_report`. -/
structure Assessment where
  clause : String
  selected_maturity_level : Option PyNum
  calculated_score : Option CalcScore
  maturity_levels : List MaturityLevel
  deriving DecidableEq

/-- Python `int(q)` on a float: truncation toward zero (T-division of
the numerator by the denominator, which Lean's `Int.tdiv` implements). -/
def pyTrunc (q : ℚ) : ℤ :=
  Int.tdiv q.num (q.den : ℤ)

/-- `src/app.py` lines 189-193: the current maturity level is the selected
level truncated to an int when it is numeric, and `1` when the selection
is absent (`None`) or non-numeric. -/
def currentLevelOf (v : Option PyNum) : ℤ :=
  match v with
  | none => 1
  | some (PyNum.num q) => pyTrunc q
  | some PyNum.bad => 1

/-- `calculated_score.get(key, 0) or 0` followed by `float(...)`: absent
or falsy values become `0`; a truthy non-numeric value makes `float`
raise, which the source handles separately (see `coerceScores`). -/
def fieldVal (v : Option PyNum) : Option ℚ :=
  match v with
  | none => some 0
  | some (PyNum.num q) => some q
  | some PyNum.bad => none

/-- `src/app.py` lines 198-214: coerce the three score fields to floats.
A missing or non-dict `calculated_score` yields `(0,0,0)`; the three
`float(...)` coercions share one `try` block, so if any of them raises
all three results are `0.0`.  Result order: (percentage, total, max). -/
def coerceScores (cs : Option CalcScore) : ℚ × ℚ × ℚ :=
  match cs with
  | none => (0, 0, 0)
  | some c =>
    match fieldVal c.percentage, fieldVal c.total, fieldVal c.max with
    | some p, some t, some m => (p, t, m)
    | _, _, _ => (0, 0, 0)

/-- Python `max(x, y)` on two numbers: returns `y` when `y > x`, else
`x`.  (Kept separate from Mathlib's `max` so that the kernel can
evaluate it on concrete rationals; `pyMax_eq_max` identifies the two.) -/
def pyMax (x y : ℚ) : ℚ := if x < y then y else x

lemma pyMax_eq_max (x y : ℚ) : pyMax x y = max x y := by
  unfold pyMax
  rcases lt_or_ge x y with h | h
  · rw [if_pos h, max_eq_right h.le]
  · rw [if_neg (not_lt.mpr h), max_eq_left h]

/-- `src/app.py` lines 218-224: the effective maturity level, adjusted
down when practice completion is low. -/
def effectiveLevel (c : ℤ) (p : ℚ) : ℚ :=
  if 1 < c ∧ p < 50 then pyMax 1 ((c : ℚ) - 1/2)
  else if 1 < c ∧ p < 75 then (c : ℚ) - 1/4
  else (c : ℚ)

/-- Round-half-to-even of a rational to an integer (the rounding mode of
Python `round` and of `format` with an `f` specifier, idealised over ℚ). -/
def rneInt (q : ℚ) : ℤ :=
  if q - (Int.floor q : ℚ) < 1/2 then Int.floor q
  else if 1/2 < q - (Int.floor q : ℚ) then Int.floor q + 1
  else if Int.floor q % 2 = 0 then Int.floor q else Int.floor q + 1

/-- Python `round(q, d)`. -/
def rnd (q : ℚ) (d : ℕ) : ℚ :=
  (rneInt (q * (10 : ℚ) ^ d) : ℚ) / (10 : ℚ) ^ d

/-- Python `f"{q:.df}"`: fixed-point decimal rendering with `d` fractional
digits, round-half-to-even. -/
def fmtDec (d : ℕ) (q : ℚ) : String :=
  let n := rneInt (q * (10 : ℚ) ^ d)
  let a := n.natAbs
  let ip := a / 10 ^ d
  let fp := a % 10 ^ d
  let fs := toString fp
  let fracStr := String.mk (List.replicate (d - fs.length) '0') ++ fs
  (if n < 0 then ("-") else ("")) ++ toString ip ++ (".") ++ fracStr

/-- `ml.get('level') == k` for an integer `k`: true only when the level
entry is numeric and equal to `k`. -/
def pyEqInt (v : Option PyNum) (k : ℤ) : Bool :=
  match v with
  | some (PyNum.num q) => decide (q = (k : ℚ))
  | _ => false

/-- `src/app.py` lines 244-253: the loop over `maturity_levels` keeps the
last entry whose `level` equals `k` (each `if` overwrites the variable). -/
def findLevelData (mls : List MaturityLevel) (k : ℤ) : Option MaturityLevel :=
  mls.foldl (fun acc ml => if pyEqInt ml.level k then some ml else acc) none

/-- `src/app.py` lines 184-186: `clause_num` is the part before the first
space and `clause_name` the part after it; a clause without a space is
used for both.  Result order: (clause_num, clause_name). -/
def clauseParts (clause : String) : String × String :=
  match clause.splitOn (" ") with
  | [] => (clause, clause)
  | [_] => (clause, clause)
  | x :: rest => (x, String.intercalate (" ") rest)

def descOf (d : Option MaturityLevel) : String :=
  match d with
  | some ml => ml.description
  | none => ("")

/-- One step of the per-record roadmap to level 4. -/
structure RoadmapStep where
  step : ℕ
  target_level : ℕ
  title : String
  description : String
  practices : List String
  what_to_do : String
  deriving DecidableEq

/-- `src/app.py` lines 301-329: the per-record roadmap.  Each step is
gated on the integer `current_level` (not the fractional effective
level) and on the presence of the target level's data. -/
def roadmapSteps (c : ℤ) (l2 l3 l4 : Option MaturityLevel) : List RoadmapStep :=
  (match l2 with
   | some d =>
     if c < 2 then
       [{ step := 1, target_level := 2,
          title := ("Step 1: Advance to Level 2"),
          description := d.description,
          practices := (d.practices.take 4).map Practice.text,
          what_to_do := ("Implement Level 2 practices: ")
            ++ String.intercalate (", ") ((d.practices.take 3).map Practice.text) }]
     else []
   | none => [])
  ++ (match l3 with
   | some d =>
     if c < 3 then
       [{ step := if c < 2 then 2 else 1, target_level := 3,
          title := ("Step ") ++ (if c < 2 then ("2") else ("1")) ++ (": Advance to Level 3"),
          description := d.description,
          practices := (d.practices.take 4).map Practice.text,
          what_to_do := ("Implement Level 3 practices: ")
            ++ String.intercalate (", ") ((d.practices.take 3).map Practice.text) }]
     else []
   | none => [])
  ++ (match l4 with
   | some d =>
     if c < 4 then
       [{ step := if c < 3 then 3 else if c < 2 then 2 else 1, target_level := 4,
          title := ("Step ") ++ (if c < 3 then ("3") else if c < 2 then ("2") else ("1"))
            ++ (": Reach Level 4 (Target)"),
          description := d.description,
          practices := (d.practices.take 4).map Practice.text,
          what_to_do := ("Implement Level 4 practices: ")
            ++ String.intercalate (", ") ((d.practices.take 3).map Practice.text) }]
     else []
   | none => [])

/-- One entry of the `user_selection` list inside `gap_details`; `value`
models the numeric companion entry of the dict (`level` in the first
note, `percentage` in the second). -/
structure SelectionNote where
  title : String
  content : String
  value : ℚ
  deriving DecidableEq

/-- The `gap_details` dict built at `src/app.py` lines 354-362.  Note
that it never contains `required_actions`, `practices_to_implement`,
`missing_elements` or `target_level_description` keys, so every later
`gap_details.get(...)` on those keys yields `None`. -/
structure GapDetails where
  user_selection : List SelectionNote
  missing_at_current_level : List String
  roadmap_to_level_4 : List RoadmapStep
  current_level_description : String
  level_2_description : String
  level_3_description : String
  level_4_description : String
  deriving DecidableEq

/-- The per-record `gap_info` dict (`src/app.py` lines 364-377). -/
structure GapInfo where
  clause : String
  clause_name : String
  current_level : ℚ
  selected_level : ℤ
  target_level : ℤ
  gap_description : String
  score_percentage : ℚ
  total_score : ℚ
  max_score : ℚ
  impact : String
  priority : String
  gap_details : GapDetails
  deriving DecidableEq

/-- The values the per-record pass of the loop produces: the `gap_info`
entry plus the raw (unrounded) quantities the rest of the loop body and
the aggregation use. -/
structure PerRecord where
  info : GapInfo
  gap : ℚ
  effective : ℚ
  tScore : ℚ
  mScore : ℚ
  deriving DecidableEq

/-- The body of the `for assessment in assessments` loop
(`src/app.py` lines 183-379), for one record. -/
def processRecord (a : Assessment) : PerRecord :=
  let parts := clauseParts a.clause
  let clause_num := parts.1
  let clause_name := parts.2
  let current_level := currentLevelOf a.selected_maturity_level
  let target_level : ℤ := 4
  let scores := coerceScores a.calculated_score
  let score_percentage := scores.1
  let total_score := scores.2.1
  let max_score := scores.2.2
  let effective_level := effectiveLevel current_level score_percentage
  let gap : ℚ := (target_level : ℚ) - effective_level
  let current_level_data := findLevelData a.maturity_levels current_level
  let level_2_data := findLevelData a.maturity_levels 2
  let level_3_data := findLevelData a.maturity_levels 3
  let level_4_data := findLevelData a.maturity_levels 4
  let level_selected := a.selected_maturity_level.isSome
  let user_selection :=
    (if level_selected then
      [{ title := ("Your Selection"),
         content := ("You selected Level ") ++ toString current_level ++ (". ")
           ++ descOf current_level_data,
         value := (current_level : ℚ) }]
     else
      [({ title := ("Your Selection"),
          content := ("No maturity level has been selected. Default status: Level 1."),
          value := 1 } : SelectionNote)])
    ++ (if 0 < max_score ∧ 0 < score_percentage then
      [{ title := ("Practice Completion"),
         content := ("You have completed ") ++ fmtDec 1 score_percentage
           ++ ("% of practices (") ++ fmtDec 2 total_score ++ (" out of ")
           ++ fmtDec 2 max_score ++ (" points)."),
         value := score_percentage }]
     else
      [({ title := ("Practice Completion"),
          content := ("Practices have not been assessed or completed yet."),
          value := 0 } : SelectionNote)])
  let missing_at_current_level :=
    match current_level_data with
    | some d =>
      if score_percentage < 100 ∧ d.practices ≠ [] then
        [("Complete remaining practices for Level ") ++ toString current_level,
         ("Ensure all Level ") ++ toString current_level ++ (" practices are implemented")]
      else []
    | none => []
  let roadmap := roadmapSteps current_level level_2_data level_3_data level_4_data
  let descParts :=
    (if level_selected then
       [("You selected Level ") ++ toString current_level ++ (".")]
       ++ (match current_level_data with
           | some d => [("Current state: ") ++ d.description]
           | none => [])
     else [("No maturity level selected. Default: Level 1.")])
    ++ (if 0 < max_score then
          (if score_percentage = 0 then [("No practices completed.")]
           else [("Practice completion: ") ++ fmtDec 1 score_percentage ++ ("%.")])
        else [("Practices not assessed.")])
  let gap_description := String.intercalate (" ") descParts
  let details : GapDetails :=
    { user_selection := user_selection,
      missing_at_current_level := missing_at_current_level,
      roadmap_to_level_4 := roadmap,
      current_level_description := descOf current_level_data,
      level_2_description := descOf level_2_data,
      level_3_description := descOf level_3_data,
      level_4_description := descOf level_4_data }
  let info : GapInfo :=
    { clause := clause_num,
      clause_name := clause_name,
      current_level := rnd effective_level 1,
      selected_level := current_level,
      target_level := target_level,
      gap_description := gap_description,
      score_percentage := rnd score_percentage 1,
      total_score := rnd total_score 2,
      max_score := rnd max_score 2,
      impact := (if (5:ℚ)/2 ≤ gap then ("High")
                 else if (3:ℚ)/2 ≤ gap then ("Medium") else ("Low")),
      priority := (if (5:ℚ)/2 ≤ gap then ("Critical")
                   else if (3:ℚ)/2 ≤ gap then ("High")
                   else if (1:ℚ)/2 ≤ gap then ("Medium") else ("Low")),
      gap_details := details }
  { info := info, gap := gap, effective := effective_level,
    tScore := total_score, mScore := max_score }

/-- `gap >= 2.5` (`src/app.py` line 381). -/
def isCriticalGap (pr : PerRecord) : Bool := decide ((5:ℚ)/2 ≤ pr.gap)

/-- `elif gap >= 1.5` (`src/app.py` line 383). -/
def isModerateGap (pr : PerRecord) : Bool :=
  !(isCriticalGap pr) && decide ((3:ℚ)/2 ≤ pr.gap)

/-- the final `else` (`src/app.py` line 385). -/
def isMinorGap (pr : PerRecord) : Bool :=
  !(isCriticalGap pr) && !(decide ((3:ℚ)/2 ≤ pr.gap))

def criticalGaps (rs : List Assessment) : List GapInfo :=
  ((rs.map processRecord).filter isCriticalGap).map PerRecord.info

def moderateGaps (rs : List Assessment) : List GapInfo :=
  ((rs.map processRecord).filter isModerateGap).map PerRecord.info

def minorGaps (rs : List Assessment) : List GapInfo :=
  ((rs.map processRecord).filter isMinorGap).map PerRecord.info

/-- The four accumulators of the main loop (`src/app.py` lines 174-177,
226-232). -/
structure Totals where
  tws : ℚ
  tms : ℚ
  tls : ℚ
  cnt : ℕ
  deriving DecidableEq

/-- One iteration of the accumulation: scores are added only when the
record's `max_score` is positive (`src/app.py` lines 227-232). -/
def stepTotals (t : Totals) (a : Assessment) : Totals :=
  let pr := processRecord a
  { tws := t.tws + (if 0 < pr.mScore then pr.tScore else 0),
    tms := t.tms + (if 0 < pr.mScore then pr.mScore else 0),
    tls := t.tls + pr.effective,
    cnt := t.cnt + 1 }

def computeTotals (rs : List Assessment) : Totals :=
  rs.foldl stepTotals { tws := 0, tms := 0, tls := 0, cnt := 0 }

/-- One recommendation entry (`src/app.py` lines 464-475). -/
structure Recommendation where
  clause : String
  clause_name : String
  current_level : ℚ
  selected_level : ℚ
  target_level : ℚ
  action_items : List String
  timeline : String
  missing_elements : List String
  practices_to_implement : List String
  resources_required : String
  deriving DecidableEq

/-- The body of the recommendation loop (`src/app.py` lines 405-475) for
one gap record.  The `gap_details` dict built by the scorer never
contains the `required_actions`, `practices_to_implement`,
`missing_elements` or `target_level_description` keys, so the branches
reading them (lines 428-431, 435-436, 440-441, 444-445, 472-473) always
see `None` / fall through; they are elided here and the corresponding
output fields are the empty lists those `.get(..., [])` calls return. -/
def recommendationOf (g : GapInfo) : Recommendation :=
  let current : ℚ := g.current_level
  let selected : ℚ := (g.selected_level : ℚ)
  let target : ℚ := (g.target_level : ℚ)
  let gap_size : ℚ := target - current
  let base_items :=
    (if selected < 2 then
      [("Immediate: Select and implement Level 2 maturity for ") ++ g.clause_name]
     else [])
    ++ (if selected < 3 then
      [("Short-term: Advance to Level 3 by implementing standardized frameworks")]
     else [])
    ++ (if selected < 4 then
      [("Long-term: Achieve Level 4 maturity through automation and optimization")]
     else [])
  let action_items :=
    if base_items = [] then
      (if current < 2 then
        [("Establish basic documentation and processes for ") ++ g.clause_name
          ++ (" to reach Level 2.")]
       else [])
      ++ (if current < 3 then
        [("Develop standardized frameworks and integrate ") ++ g.clause_name
          ++ (" into planning processes to reach Level 3.")]
       else [])
      ++ (if current < 4 then
        [("Implement automation and continuous improvement for ") ++ g.clause_name
          ++ (" to reach Level 4.")]
       else [])
    else base_items
  let timeline :=
    if (5:ℚ)/2 ≤ gap_size then ("6-12 months")
    else if (3:ℚ)/2 ≤ gap_size then ("3-6 months")
    else ("1-3 months")
  { clause := g.clause,
    clause_name := g.clause_name,
    current_level := current,
    selected_level := selected,
    target_level := target,
    action_items := action_items,
    timeline := timeline,
    missing_elements := [],
    practices_to_implement := [],
    resources_required :=
      ("Training, documentation tools, process improvement resources, and management commitment for ")
        ++ g.clause_name ++ (".") }

/-- One phase of the report-level roadmap (`src/app.py` lines 478-509). -/
structure Phase where
  title : String
  duration : String
  clauses : List String
  key_actions : List String
  deriving DecidableEq

structure RoadmapPhases where
  phase_1 : Phase
  phase_2 : Phase
  phase_3 : Phase
  deriving DecidableEq

structure PriorityMatrix where
  quick_wins : List String
  strategic_initiatives : List String
  foundational_requirements : List String
  deriving DecidableEq

structure GapAnalysis where
  critical_gaps : List GapInfo
  moderate_gaps : List GapInfo
  minor_gaps : List GapInfo
  deriving DecidableEq

/-- The report dict (`src/app.py` lines 533-548). -/
structure Report where
  executive_summary : String
  overall_maturity_score : String
  overall_maturity_numeric : ℚ
  overall_percentage_score : ℚ
  total_clauses : ℕ
  assessed_clauses : List GapInfo
  gap_analysis : GapAnalysis
  recommendations : List Recommendation
  roadmap_to_level_4 : RoadmapPhases
  priority_matrix : PriorityMatrix
  deriving DecidableEq

def clauseLabel (g : GapInfo) : String :=
  g.clause ++ (" - ") ++ g.clause_name

/-- `src/app.py` lines 173-548 for a non-empty record list.  For a
non-empty list `clause_count > 0`, so the `if clause_count > 0` branch at
line 389 is the one taken; the first `executive_summary` assignment at
lines 519-520 is immediately overwritten by the second (lines 526-531)
and `completion_rate` (line 524) is never read, so only the final
executive summary is modelled. -/
def buildReport (rs : List Assessment) : Report :=
  let critical_gaps := criticalGaps rs
  let moderate_gaps := moderateGaps rs
  let minor_gaps := minorGaps rs
  let t := computeTotals rs
  let avg_level : ℚ := t.tls / (t.cnt : ℚ)
  let overall_percentage : ℚ :=
    if 0 < t.tms then t.tws / t.tms * 100 else 0
  let combined_score : ℚ :=
    avg_level / 4 * 100 * (0.6 : ℚ) + overall_percentage * (0.4 : ℚ)
  let overall_maturity := ("Level ") ++ fmtDec 1 avg_level
  let overall_percentage_score := rnd combined_score 1
  let recommendations :=
    (critical_gaps ++ moderate_gaps ++ minor_gaps).map recommendationOf
  let roadmap : RoadmapPhases :=
    { phase_1 :=
        { title := ("Foundation (Level 1 to Level 2)"),
          duration := ("3-6 months"),
          clauses := ((critical_gaps.take 5) ++ (moderate_gaps.take 3)).map GapInfo.clause,
          key_actions :=
            [("Document basic processes and procedures"),
             ("Establish foundational documentation"),
             ("Identify key stakeholders and requirements")] },
      phase_2 :=
        { title := ("Standardization (Level 2 to Level 3)"),
          duration := ("6-9 months"),
          clauses := (critical_gaps ++ moderate_gaps).map GapInfo.clause,
          key_actions :=
            [("Develop standardized frameworks"),
             ("Integrate processes into strategic planning"),
             ("Establish regular review processes")] },
      phase_3 :=
        { title := ("Optimization (Level 3 to Level 4)"),
          duration := ("6-12 months"),
          clauses := (critical_gaps ++ moderate_gaps ++ minor_gaps).map GapInfo.clause,
          key_actions :=
            [("Implement automation and monitoring systems"),
             ("Use data-driven decision making"),
             ("Align all processes with strategic objectives")] } }
  let priority_matrix : PriorityMatrix :=
    { quick_wins := (minor_gaps.take 5).map clauseLabel,
      strategic_initiatives := (critical_gaps.take 5).map clauseLabel,
      foundational_requirements := (moderate_gaps.take 5).map clauseLabel }
  let executive_summary :=
    ("Based on your assessment selections, the organization is currently at ")
    ++ overall_maturity
    ++ (" maturity level with an overall compliance score of ")
    ++ fmtDec 1 overall_percentage_score
    ++ ("%. Out of ") ++ toString t.cnt
    ++ (" clauses assessed, ") ++ toString critical_gaps.length
    ++ (" require critical attention, ") ++ toString moderate_gaps.length
    ++ (" have moderate gaps, and ") ++ toString minor_gaps.length
    ++ (" have minor gaps. ")
    ++ (if critical_gaps ≠ ([] : List GapInfo) then
          ("Priority focus areas include ")
          ++ String.intercalate (", ") ((critical_gaps.take 3).map clauseLabel)
          ++ (".")
        else (""))
  { executive_summary := executive_summary,
    overall_maturity_score := overall_maturity,
    overall_maturity_numeric := rnd avg_level 2,
    overall_percentage_score := overall_percentage_score,
    total_clauses := t.cnt,
    assessed_clauses := (rs.map processRecord).map PerRecord.info,
    gap_analysis :=
      { critical_gaps := critical_gaps,
        moderate_gaps := moderate_gaps,
        minor_gaps := minor_gaps },
    recommendations := recommendations,
    roadmap_to_level_4 := roadmap,
    priority_matrix := priority_matrix }

/-- `src/app.py` lines 168-550: `if not assessments: return None` at
lines 170-171 makes the function return `None` on an empty list; every
non-empty list yields a report. -/
def generate_compliance_report (rs : List Assessment) : Option Report :=
  if rs = [] then none else some (buildReport rs)

/-- A maturity-level descriptor with a numeric level and no practices. -/
def mlOf (k : ℚ) (d : String) : MaturityLevel :=
  { level := some (PyNum.num k), description := d, practices := [] }

/-- A record with selected level 2 and 30% practice completion (the
worked example of the specification): effective level 1.5, gap 2.5. -/
def sampleA : Assessment :=
  { clause := ("7.3 Design and Development"),
    selected_maturity_level := some (PyNum.num 2),
    calculated_score := some
      { percentage := some (PyNum.num 30),
        total := some (PyNum.num 3),
        max := some (PyNum.num 10) },
    maturity_levels := [mlOf 1 ("ad hoc"), mlOf 2 ("documented"),
                        mlOf 3 ("standardized"), mlOf 4 ("optimized")] }

/-- A record with selected level 4 and 80% practice completion:
effective level 4, gap 0. -/
def sampleB : Assessment :=
  { clause := ("9.1 Monitoring"),
    selected_maturity_level := some (PyNum.num 4),
    calculated_score := some
      { percentage := some (PyNum.num 80),
        total := some (PyNum.num 8),
        max := some (PyNum.num 10) },
    maturity_levels := [mlOf 2 ("documented"), mlOf 3 ("standardized"),
                        mlOf 4 ("optimized")] }

/-! Projection lemmas relating the per-record pass to its ingredients. -/

lemma processRecord_effective (a : Assessment) :
    (processRecord a).effective
      = effectiveLevel (currentLevelOf a.selected_maturity_level)
          (coerceScores a.calculated_score).1 := rfl

lemma processRecord_gap (a : Assessment) :
    (processRecord a).gap = ((4 : ℤ) : ℚ) - (processRecord a).effective := rfl

lemma processRecord_tScore (a : Assessment) :
    (processRecord a).tScore = (coerceScores a.calculated_score).2.1 := rfl

lemma processRecord_mScore (a : Assessment) :
    (processRecord a).mScore = (coerceScores a.calculated_score).2.2 := rfl

lemma processRecord_selected (a : Assessment) :
    (processRecord a).info.selected_level
      = currentLevelOf a.selected_maturity_level := rfl

lemma processRecord_current (a : Assessment) :
    (processRecord a).info.current_level
      = rnd (effectiveLevel (currentLevelOf a.selected_maturity_level)
          (coerceScores a.calculated_score).1) 1 := rfl

lemma processRecord_target (a : Assessment) :
    (processRecord a).info.target_level = 4 := rfl

lemma processRecord_roadmap (a : Assessment) :
    (processRecord a).info.gap_details.roadmap_to_level_4
      = roadmapSteps (currentLevelOf a.selected_maturity_level)
          (findLevelData a.maturity_levels 2)
          (findLevelData a.maturity_levels 3)
          (findLevelData a.maturity_levels 4) := rfl

/-- C1 counterexample: on the empty record list the function returns
`none` (`if not assessments: return None`), not a report carrying the
documented defaults. -/
theorem C1_counterexample : generate_compliance_report [] = none := rfl

/-- C1 (amended): `generate_compliance_report` returns `None` exactly on
the empty record list, and a report on every non-empty list; it has no
failure mode. -/
theorem C1_empty_returns_none :
    ∀ rs : List Assessment, generate_compliance_report rs = none ↔ rs = [] := by
  intro rs
  cases rs with
  | nil => simp [generate_compliance_report]
  | cons a t => simp [generate_compliance_report]

/-- C1 witness: the amended statement evaluated at the empty list. -/
theorem C1_witness : generate_compliance_report [] = none :=
  (C1_empty_returns_none []).mpr rfl

/-- The `(step, target_level)` pairs produced by the per-record roadmap
builder, as a function of the integer current level and of which target
levels have data. -/
lemma roadmapSteps_pairs (c : ℤ) (l2 l3 l4 : Option MaturityLevel) :
    (roadmapSteps c l2 l3 l4).map (fun s => (s.step, s.target_level))
      = (if c < 2 ∧ l2.isSome then [(1, 2)] else [])
        ++ (if c < 3 ∧ l3.isSome then [((if c < 2 then 2 else 1), 3)] else [])
        ++ (if c < 4 ∧ l4.isSome then
              [((if c < 3 then 3 else if c < 2 then 2 else 1), 4)] else []) := by
  rcases l2 with _ | d2 <;> rcases l3 with _ | d3 <;> rcases l4 with _ | d4 <;>
    simp only [roadmapSteps, Option.isSome_none, Option.isSome_some] <;>
    split_ifs <;> simp_all

/-- C2 counterexample: the record `sampleA` has effective level `1.5`,
yet its roadmap has no step targeting level 2 (level-2 data exists) and
its steps are numbered 1 and 3, not sequentially. -/
theorem C2_counterexample :
    (processRecord sampleA).effective = 3/2
    ∧ (findLevelData sampleA.maturity_levels 2).isSome = true
    ∧ ((processRecord sampleA).info.gap_details.roadmap_to_level_4.map
        (fun s => (s.step, s.target_level))) = [(1, 3), (3, 4)] := by
  refine ⟨by decide, by decide, by decide⟩

/-- C2 (amended): for every record, the roadmap contains a step for
target level t in {2,3,4} exactly when the integer `current_level` (the
selected level, not the fractional effective level) is below t and the
maturity-levels entry for t exists; steps appear in increasing target
order; the target-2 step is numbered 1, the target-3 step is numbered 2
if `current_level < 2` and 1 otherwise, and the target-4 step is
numbered 3 if `current_level < 3`, 2 if `current_level < 2`, and 1
otherwise — so a record at effective level 1.5 (selected level 2)
produces steps targeting levels 3 and 4 numbered 1 and 3. -/
theorem C2_roadmap_steps (a : Assessment) :
    ((processRecord a).info.gap_details.roadmap_to_level_4.map
        (fun s => (s.step, s.target_level)))
      = (if currentLevelOf a.selected_maturity_level < 2
            ∧ (findLevelData a.maturity_levels 2).isSome then [(1, 2)] else [])
        ++ (if currentLevelOf a.selected_maturity_level < 3
              ∧ (findLevelData a.maturity_levels 3).isSome then
              [((if currentLevelOf a.selected_maturity_level < 2 then 2 else 1), 3)] else [])
        ++ (if currentLevelOf a.selected_maturity_level < 4
              ∧ (findLevelData a.maturity_levels 4).isSome then
              [((if currentLevelOf a.selected_maturity_level < 3 then 3
                 else if currentLevelOf a.selected_maturity_level < 2 then 2 else 1), 4)]
            else []) := by
  rw [processRecord_roadmap, roadmapSteps_pairs]

/-- C9: the scorer is a pure function: equal inputs produce equal
reports (the shallow embedding is a total Lean function, so it has no
side effects and cannot mutate its input). -/
theorem C9_deterministic (rs1 rs2 : List Assessment) (h : rs1 = rs2) :
    generate_compliance_report rs1 = generate_compliance_report rs2 := by
  rw [h]

/-- C9 witness: determinism at a concrete input. -/
theorem C9_witness :
    generate_compliance_report [sampleA] = generate_compliance_report [sampleA] :=
  C9_deterministic [sampleA] [sampleA] rfl

/-- Modelled from the claim wording of C3: the effective level with the
middle branch stated as `50 <= score_percentage < 75`. -/
def effectiveLevelSpec (c : ℤ) (p : ℚ) : ℚ :=
  if 1 < c ∧ p < 50 then max 1 ((c : ℚ) - (0.5 : ℚ))
  else if 1 < c ∧ 50 ≤ p ∧ p < 75 then (c : ℚ) - (0.25 : ℚ)
  else (c : ℚ)

lemma effectiveLevel_eq_spec (c : ℤ) (p : ℚ) :
    effectiveLevel c p = effectiveLevelSpec c p := by
  unfold effectiveLevel effectiveLevelSpec
  rw [pyMax_eq_max]
  split_ifs with hA hB hC hD
  · norm_num
  · norm_num
  · exact absurd ⟨hB.1, not_lt.mp (fun hp => hA ⟨hB.1, hp⟩), hB.2⟩ hC
  · exact absurd ⟨hD.1, hD.2.2⟩ hB
  · rfl

/-- C3: for every record the effective level follows the claimed
three-branch formula over `current_level` and `score_percentage`, the
current level defaults to 1 when the selection is absent (`None`) or
non-numeric, and the score percentage defaults to 0 when
`calculated_score` is absent or its percentage is malformed. -/
theorem C3_effective_level (a : Assessment) :
    (processRecord a).effective
      = effectiveLevelSpec (currentLevelOf a.selected_maturity_level)
          (coerceScores a.calculated_score).1
    ∧ currentLevelOf none = 1
    ∧ currentLevelOf (some PyNum.bad) = 1
    ∧ (coerceScores none).1 = 0
    ∧ (∀ c : CalcScore, c.percentage = some PyNum.bad → (coerceScores (some c)).1 = 0) := by
  refine ⟨?_, rfl, rfl, rfl, ?_⟩
  · rw [processRecord_effective, effectiveLevel_eq_spec]
  · intro c hc
    rcases ht : fieldVal c.total with _ | t <;> rcases hm : fieldVal c.max with _ | m <;>
      simp [coerceScores, hc, fieldVal, ht, hm]

/-- C3 witness: the effective-level formula evaluated at a concrete
record (selected level 2, 30% completion). -/
theorem C3_witness :
    (processRecord sampleA).effective
      = effectiveLevelSpec (currentLevelOf sampleA.selected_maturity_level)
          (coerceScores sampleA.calculated_score).1 :=
  (C3_effective_level sampleA).1

/-- C10: a record with a numeric selected level of 4 and a score
percentage of at least 75 keeps effective level 4, and — since the
`gap_details` built by the scorer never contains `required_actions`,
`practices_to_implement`, `missing_elements` or
`target_level_description` keys — its recommendation has an empty
`action_items` list. -/
theorem C10_empty_action_items (a : Assessment)
    (hsel : a.selected_maturity_level = some (PyNum.num 4))
    (hp : 75 ≤ (coerceScores a.calculated_score).1) :
    (recommendationOf (processRecord a).info).action_items = [] := by
  have hc : currentLevelOf a.selected_maturity_level = 4 := by
    rw [hsel]; decide
  have heff : effectiveLevel (currentLevelOf a.selected_maturity_level)
      (coerceScores a.calculated_score).1 = ((4 : ℤ) : ℚ) := by
    rw [hc]
    unfold effectiveLevel
    rw [if_neg (by push_neg; intro _; linarith), if_neg (by push_neg; intro _; linarith)]
  have hcur : (processRecord a).info.current_level = 4 := by
    rw [processRecord_current, heff]
    decide
  have hsel4 : (processRecord a).info.selected_level = 4 := by
    rw [processRecord_selected, hc]
  unfold recommendationOf
  rw [hcur, hsel4]
  norm_num

/-- C10 witness: a concrete record with selected level 4 and 80%
completion yields an empty action-item list. -/
theorem C10_witness :
    sampleB.selected_maturity_level = some (PyNum.num 4)
    ∧ 75 ≤ (coerceScores sampleB.calculated_score).1
    ∧ (recommendationOf (processRecord sampleB).info).action_items = [] :=
  ⟨rfl, by decide, C10_empty_action_items sampleB rfl (by decide)⟩

lemma isModerate_iff (pr : PerRecord) :
    isModerateGap pr = decide ((3:ℚ)/2 ≤ pr.gap ∧ pr.gap < (5:ℚ)/2) := by
  rw [Bool.eq_iff_iff]
  simp only [isModerateGap, isCriticalGap, Bool.and_eq_true, Bool.not_eq_true',
    decide_eq_true_eq, decide_eq_false_iff_not]
  constructor
  · rintro ⟨h1, h2⟩
    exact ⟨h2, not_le.mp h1⟩
  · rintro ⟨h1, h2⟩
    exact ⟨not_le.mpr h2, h1⟩

lemma isMinor_iff (pr : PerRecord) :
    isMinorGap pr = decide (pr.gap < (3:ℚ)/2) := by
  rw [Bool.eq_iff_iff]
  simp only [isMinorGap, isCriticalGap, Bool.and_eq_true, Bool.not_eq_true',
    decide_eq_true_eq, decide_eq_false_iff_not]
  constructor
  · rintro ⟨_, h2⟩
    exact not_le.mp h2
  · intro h
    refine ⟨not_le.mpr (h.trans (by norm_num)), not_le.mpr h⟩

/-- C4: the three gap buckets select records by gap thresholds 2.5 and
1.5 as claimed, and the per-record `impact` and `priority` strings
follow the claimed threshold formulas. -/
theorem C4_gap_classification (rs : List Assessment) :
    criticalGaps rs = (((rs.map processRecord).filter
        (fun pr => decide ((5:ℚ)/2 ≤ pr.gap))).map PerRecord.info)
    ∧ moderateGaps rs = (((rs.map processRecord).filter
        (fun pr => decide ((3:ℚ)/2 ≤ pr.gap ∧ pr.gap < (5:ℚ)/2))).map PerRecord.info)
    ∧ minorGaps rs = (((rs.map processRecord).filter
        (fun pr => decide (pr.gap < (3:ℚ)/2))).map PerRecord.info)
    ∧ (∀ a : Assessment,
        (processRecord a).info.impact
          = (if (5:ℚ)/2 ≤ (processRecord a).gap then ("High")
             else if (3:ℚ)/2 ≤ (processRecord a).gap then ("Medium") else ("Low"))
        ∧ (processRecord a).info.priority
          = (if (5:ℚ)/2 ≤ (processRecord a).gap then ("Critical")
             else if (3:ℚ)/2 ≤ (processRecord a).gap then ("High")
             else if (1:ℚ)/2 ≤ (processRecord a).gap then ("Medium") else ("Low"))) := by
  refine ⟨rfl, ?_, ?_, fun a => ⟨rfl, rfl⟩⟩
  · unfold moderateGaps
    exact congrArg _ (List.filter_congr (fun pr _ => isModerate_iff pr))
  · unfold minorGaps
    exact congrArg _ (List.filter_congr (fun pr _ => isMinor_iff pr))

/-- The three bucket filters of any list of processed records recombine
to a permutation of that list. -/
lemma bucket_perm (l : List PerRecord) :
    (l.filter isCriticalGap ++ l.filter isModerateGap ++ l.filter isMinorGap).Perm l := by
  have h2 : l.filter isModerateGap
      = (l.filter (fun x => !(isCriticalGap x))).filter
          (fun x => decide ((3:ℚ)/2 ≤ x.gap)) := by
    rw [List.filter_filter]
    exact List.filter_congr (fun x _ => by simp [isModerateGap, Bool.and_comm])
  have h3 : l.filter isMinorGap
      = (l.filter (fun x => !(isCriticalGap x))).filter
          (fun x => !(decide ((3:ℚ)/2 ≤ x.gap))) := by
    rw [List.filter_filter]
    exact List.filter_congr (fun x _ => by simp [isMinorGap, Bool.and_comm])
  have hmn : (l.filter isModerateGap ++ l.filter isMinorGap).Perm
      (l.filter (fun x => !(isCriticalGap x))) := by
    rw [h2, h3]
    exact List.filter_append_perm _ _
  rw [List.append_assoc]
  exact (List.Perm.append_left _ hmn).trans (List.filter_append_perm _ _)

/-- The three buckets together contain as many entries as there are
records. -/
lemma buckets_length (rs : List Assessment) :
    (criticalGaps rs).length + (moderateGaps rs).length + (minorGaps rs).length
      = rs.length := by
  have h := (bucket_perm (rs.map processRecord)).length_eq
  simp only [criticalGaps, moderateGaps, minorGaps, List.length_append,
    List.length_map] at h ⊢
  omega

/-- C6: the buckets partition the records: their concatenation is a
permutation of the per-record gap infos in input order, their lengths
sum to the number of records, and every processed record satisfies
exactly one of the three bucket predicates. -/
theorem C6_buckets_partition (rs : List Assessment) :
    (criticalGaps rs ++ moderateGaps rs ++ minorGaps rs).Perm
      (rs.map (fun a => (processRecord a).info))
    ∧ (criticalGaps rs).length + (moderateGaps rs).length + (minorGaps rs).length
        = rs.length
    ∧ ∀ pr : PerRecord,
        ((if isCriticalGap pr then 1 else 0) + (if isModerateGap pr then 1 else 0)
          + (if isMinorGap pr then 1 else 0)) = (1 : ℕ) := by
  refine ⟨?_, buckets_length rs, ?_⟩
  · have h := (bucket_perm (rs.map processRecord)).map PerRecord.info
    simpa [criticalGaps, moderateGaps, minorGaps, Function.comp] using h
  · intro pr
    by_cases h1 : (5:ℚ)/2 ≤ pr.gap <;> by_cases h2 : (3:ℚ)/2 ≤ pr.gap <;>
      simp [isCriticalGap, isModerateGap, isMinorGap, h1, h2]

/-- C8: the recommendations list is exactly one entry per gap record, in
the order critical gaps, then moderate, then minor; it has one entry per
input record; and each entry's timeline is bucketed by its gap size at
thresholds 2.5 and 1.5. -/
theorem C8_recommendations (rs : List Assessment) :
    (buildReport rs).recommendations
      = (criticalGaps rs ++ moderateGaps rs ++ minorGaps rs).map recommendationOf
    ∧ (buildReport rs).recommendations.length = rs.length
    ∧ ∀ g : GapInfo, (recommendationOf g).timeline
        = (if (5:ℚ)/2 ≤ (g.target_level : ℚ) - g.current_level then ("6-12 months")
           else if (3:ℚ)/2 ≤ (g.target_level : ℚ) - g.current_level then ("3-6 months")
           else ("1-3 months")) := by
  refine ⟨rfl, ?_, fun g => rfl⟩
  have h := buckets_length rs
  show ((criticalGaps rs ++ moderateGaps rs ++ minorGaps rs).map recommendationOf).length
    = rs.length
  simp only [List.length_map, List.length_append]
  omega

/-- Modelled from the claim wording of C5: the sum of `effective_level`
over all records. -/
def sumEffective (rs : List Assessment) : ℚ :=
  (rs.map (fun a => (processRecord a).effective)).sum

/-- Modelled from the claim wording of C5: the mean of `effective_level`
over all records. -/
def avgLevelSpec (rs : List Assessment) : ℚ :=
  sumEffective rs / (rs.length : ℚ)

/-- Modelled from the claim wording of C5: the sum of `total_score` over
the records with positive `max_score`. -/
def sumTotals (rs : List Assessment) : ℚ :=
  (((rs.map processRecord).filter (fun pr => decide (0 < pr.mScore))).map
    PerRecord.tScore).sum

/-- Modelled from the claim wording of C5: the sum of `max_score` over
the records with positive `max_score`. -/
def sumMaxes (rs : List Assessment) : ℚ :=
  (((rs.map processRecord).filter (fun pr => decide (0 < pr.mScore))).map
    PerRecord.mScore).sum

/-- Modelled from the claim wording of C5: the weighted overall
percentage, `0` when no record has a positive `max_score`. -/
def overallPercentageSpec (rs : List Assessment) : ℚ :=
  if ∃ pr ∈ rs.map processRecord, 0 < pr.mScore
  then sumTotals rs / sumMaxes rs * 100 else 0

lemma sumEffective_cons (a : Assessment) (t : List Assessment) :
    sumEffective (a :: t) = (processRecord a).effective + sumEffective t := by
  simp [sumEffective]

lemma sumTotals_cons (a : Assessment) (t : List Assessment) :
    sumTotals (a :: t)
      = (if 0 < (processRecord a).mScore then (processRecord a).tScore else 0)
        + sumTotals t := by
  by_cases h : 0 < (processRecord a).mScore <;>
    simp [sumTotals, List.filter_cons, h]

lemma sumMaxes_cons (a : Assessment) (t : List Assessment) :
    sumMaxes (a :: t)
      = (if 0 < (processRecord a).mScore then (processRecord a).mScore else 0)
        + sumMaxes t := by
  by_cases h : 0 < (processRecord a).mScore <;>
    simp [sumMaxes, List.filter_cons, h]

/-- The loop accumulators equal the spec-side sums, for any starting
accumulator. -/
lemma foldl_totals (rs : List Assessment) (init : Totals) :
    rs.foldl stepTotals init
      = { tws := init.tws + sumTotals rs,
          tms := init.tms + sumMaxes rs,
          tls := init.tls + sumEffective rs,
          cnt := init.cnt + rs.length } := by
  induction rs generalizing init with
  | nil => simp [sumTotals, sumMaxes, sumEffective]
  | cons a t ih =>
    rw [List.foldl_cons, ih]
    simp only [stepTotals, sumTotals_cons, sumMaxes_cons, sumEffective_cons,
      List.length_cons, Totals.mk.injEq]
    refine ⟨by ring, by ring, by ring, by omega⟩

lemma computeTotals_eq (rs : List Assessment) :
    computeTotals rs
      = { tws := sumTotals rs, tms := sumMaxes rs,
          tls := sumEffective rs, cnt := rs.length } := by
  have h := foldl_totals rs { tws := 0, tms := 0, tls := 0, cnt := 0 }
  simpa [computeTotals] using h

/-- The accumulated max-score sum is positive exactly when some record
has a positive `max_score`. -/
lemma sumMaxes_pos_iff (rs : List Assessment) :
    (0 < sumMaxes rs) ↔ ∃ pr ∈ rs.map processRecord, 0 < pr.mScore := by
  constructor
  · intro h
    by_contra hc
    push_neg at hc
    have hnil : (rs.map processRecord).filter (fun pr => decide (0 < pr.mScore)) = [] := by
      rw [List.filter_eq_nil_iff]
      intro pr hpr
      simpa using hc pr hpr
    rw [sumMaxes, hnil] at h
    simp at h
  · rintro ⟨pr, hmem, hpos⟩
    have hin : pr ∈ (rs.map processRecord).filter (fun pr => decide (0 < pr.mScore)) :=
      List.mem_filter.mpr ⟨hmem, by simpa using hpos⟩
    apply List.sum_pos
    · intro x hx
      rw [List.mem_map] at hx
      obtain ⟨p2, hp2, rfl⟩ := hx
      have := List.of_mem_filter hp2
      simpa using this
    · intro hnil
      have : pr.mScore ∈ (((rs.map processRecord).filter
          (fun pr => decide (0 < pr.mScore))).map PerRecord.mScore) :=
        List.mem_map_of_mem _ hin
      rw [hnil] at this
      simp at this

/-- The overall percentage score of the report, as a function of the
accumulated totals (definitional projection of `buildReport`). -/
lemma buildReport_score_formula (rs : List Assessment) :
    (buildReport rs).overall_percentage_score
      = rnd (sumEffective rs / (rs.length : ℚ) / 4 * 100 * (0.6:ℚ)
          + (if 0 < sumMaxes rs then sumTotals rs / sumMaxes rs * 100 else 0)
            * (0.4:ℚ)) 1 := by
  show rnd ((computeTotals rs).tls / ((computeTotals rs).cnt : ℚ) / 4 * 100 * (0.6:ℚ)
      + (if 0 < (computeTotals rs).tms
         then (computeTotals rs).tws / (computeTotals rs).tms * 100 else 0)
        * (0.4:ℚ)) 1 = _
  rw [computeTotals_eq]

/-- The maturity label of the report, as a function of the accumulated
totals (definitional projection of `buildReport`). -/
lemma buildReport_label_formula (rs : List Assessment) :
    (buildReport rs).overall_maturity_score
      = ("Level ") ++ fmtDec 1 (sumEffective rs / (rs.length : ℚ)) := by
  show ("Level ") ++ fmtDec 1 ((computeTotals rs).tls / ((computeTotals rs).cnt : ℚ)) = _
  rw [computeTotals_eq]

/-- C5: for a non-empty record list the report exists, its overall
percentage score is the claimed 60/40 combination of the mean effective
level and the weighted percentage, rounded to one decimal, and its
maturity label is the formatted mean effective level. -/
theorem C5_overall_scores (rs : List Assessment) (hne : rs ≠ []) :
    generate_compliance_report rs = some (buildReport rs)
    ∧ (buildReport rs).overall_percentage_score
        = rnd (avgLevelSpec rs / 4 * 100 * (0.6:ℚ)
            + overallPercentageSpec rs * (0.4:ℚ)) 1
    ∧ (buildReport rs).overall_maturity_score
        = ("Level ") ++ fmtDec 1 (avgLevelSpec rs) := by
  refine ⟨by simp [generate_compliance_report, hne], ?_, ?_⟩
  · rw [buildReport_score_formula]
    unfold avgLevelSpec overallPercentageSpec
    rw [if_congr (sumMaxes_pos_iff rs) rfl rfl]
  · rw [buildReport_label_formula]
    unfold avgLevelSpec
    rfl

/-- C5 witness: the score formula evaluated at a concrete one-record
list. -/
theorem C5_witness :
    (buildReport [sampleA]).overall_percentage_score
      = rnd (avgLevelSpec [sampleA] / 4 * 100 * (0.6:ℚ)
          + overallPercentageSpec [sampleA] * (0.4:ℚ)) 1 :=
  (C5_overall_scores [sampleA] (by decide)).2.1

/-- Modelled from the claim wording of C7: scores are well-formed and in
range.  The selected level is integral in {1,2,3,4} — stated as bounds
on its coerced `current_level`, which for integral selections is the
selection itself — the coerced total lies between 0 and the coerced max,
and percentage * max = total * 100 (the claim's
`percentage = total/max*100`, stated multiplicatively so the `max = 0`
case is covered without division). -/
def WellFormed (a : Assessment) : Prop :=
  1 ≤ currentLevelOf a.selected_maturity_level
  ∧ currentLevelOf a.selected_maturity_level ≤ 4
  ∧ 0 ≤ (coerceScores a.calculated_score).2.1
  ∧ (coerceScores a.calculated_score).2.1 ≤ (coerceScores a.calculated_score).2.2
  ∧ (coerceScores a.calculated_score).1 * (coerceScores a.calculated_score).2.2
      = (coerceScores a.calculated_score).2.1 * 100

instance (a : Assessment) : Decidable (WellFormed a) := by
  unfold WellFormed
  infer_instance

lemma effectiveLevel_bounds (c : ℤ) (hc1 : 1 ≤ c) (hc4 : c ≤ 4) (p : ℚ) :
    1 ≤ effectiveLevel c p ∧ effectiveLevel c p ≤ 4 := by
  have h1 : (1:ℚ) ≤ (c:ℚ) := by exact_mod_cast hc1
  have h4 : (c:ℚ) ≤ 4 := by exact_mod_cast hc4
  unfold effectiveLevel
  rw [pyMax_eq_max]
  split_ifs with hA hB
  · constructor
    · exact le_max_left _ _
    · exact max_le (by norm_num) (by linarith)
  · have h2 : (2:ℚ) ≤ (c:ℚ) := by
      have : (2:ℤ) ≤ c := by omega
      exact_mod_cast this
    constructor <;> linarith
  · exact ⟨h1, h4⟩

lemma sumEffective_bounds (rs : List Assessment) (h : ∀ a ∈ rs, WellFormed a) :
    (rs.length : ℚ) ≤ sumEffective rs ∧ sumEffective rs ≤ 4 * (rs.length : ℚ) := by
  induction rs with
  | nil => simp [sumEffective]
  | cons a t ih =>
    have ha := h a (List.mem_cons_self a t)
    have ht := ih (fun x hx => h x (List.mem_cons_of_mem a hx))
    have heff := effectiveLevel_bounds (currentLevelOf a.selected_maturity_level)
      ha.1 ha.2.1 (coerceScores a.calculated_score).1
    rw [sumEffective_cons, processRecord_effective]
    simp only [List.length_cons]
    push_cast
    constructor <;> linarith [heff.1, heff.2, ht.1, ht.2]

lemma sumScores_bounds (rs : List Assessment) (h : ∀ a ∈ rs, WellFormed a) :
    0 ≤ sumTotals rs ∧ sumTotals rs ≤ sumMaxes rs := by
  induction rs with
  | nil => simp [sumTotals, sumMaxes]
  | cons a t ih =>
    have ha := h a (List.mem_cons_self a t)
    have ht := ih (fun x hx => h x (List.mem_cons_of_mem a hx))
    have h0 : 0 ≤ (processRecord a).tScore := by
      rw [processRecord_tScore]
      exact ha.2.2.1
    have hle : (processRecord a).tScore ≤ (processRecord a).mScore := by
      rw [processRecord_tScore, processRecord_mScore]
      exact ha.2.2.2.1
    rw [sumTotals_cons, sumMaxes_cons]
    by_cases hm : 0 < (processRecord a).mScore
    · rw [if_pos hm, if_pos hm]
      constructor <;> linarith [ht.1, ht.2]
    · rw [if_neg hm, if_neg hm]
      simpa using ht

lemma rneInt_nonneg (x : ℚ) (h : 0 ≤ x) : 0 ≤ rneInt x := by
  have hfl : (0:ℤ) ≤ Int.floor x := Int.floor_nonneg.mpr h
  unfold rneInt
  split_ifs <;> omega

lemma rneInt_le_intCast (x : ℚ) (n : ℤ) (h : x ≤ (n : ℚ)) : rneInt x ≤ n := by
  have hfl : Int.floor x ≤ n := by
    have h2 := Int.floor_le_floor h
    simpa using h2
  have hlow : (Int.floor x : ℚ) ≤ x := Int.floor_le x
  unfold rneInt
  split_ifs with h1 h2 h3
  · exact hfl
  · have hlt : Int.floor x < n := by
      have : (Int.floor x : ℚ) < (n : ℚ) := by linarith
      exact_mod_cast this
    omega
  · exact hfl
  · have heq : x - (Int.floor x : ℚ) = 1/2 :=
      le_antisymm (not_lt.mp h2) (not_lt.mp h1)
    have hlt : Int.floor x < n := by
      have : (Int.floor x : ℚ) < (n : ℚ) := by linarith
      exact_mod_cast this
    omega

lemma rnd1_bounds (q : ℚ) (h0 : 0 ≤ q) (h100 : q ≤ 100) :
    0 ≤ rnd q 1 ∧ rnd q 1 ≤ 100 := by
  unfold rnd
  have hp : (0:ℚ) < (10:ℚ) ^ (1:ℕ) := by norm_num
  have h1 : 0 ≤ rneInt (q * (10:ℚ) ^ (1:ℕ)) :=
    rneInt_nonneg _ (by positivity)
  have h2 : rneInt (q * (10:ℚ) ^ (1:ℕ)) ≤ 1000 := by
    apply rneInt_le_intCast
    push_cast
    nlinarith
  constructor
  · apply div_nonneg _ hp.le
    exact_mod_cast h1
  · rw [div_le_iff₀ hp]
    have h3 : ((rneInt (q * (10:ℚ) ^ (1:ℕ)) : ℤ) : ℚ) ≤ 1000 := by
      exact_mod_cast h2
    norm_num at h3 ⊢
    linarith

/-- C7: for a non-empty list of records with well-formed in-range
scores, the report's overall percentage score lies between 0 and 100. -/
theorem C7_score_bounds (rs : List Assessment) (hne : rs ≠ [])
    (hwf : ∀ a ∈ rs, WellFormed a) :
    0 ≤ (buildReport rs).overall_percentage_score
    ∧ (buildReport rs).overall_percentage_score ≤ 100 := by
  rw [buildReport_score_formula]
  have hn : 0 < (rs.length : ℚ) := by
    have hz : rs.length ≠ 0 := fun h => hne (List.length_eq_zero.mp h)
    exact_mod_cast Nat.pos_of_ne_zero hz
  obtain ⟨hs1, hs2⟩ := sumEffective_bounds rs hwf
  have havg1 : 1 ≤ sumEffective rs / (rs.length : ℚ) := by
    rw [le_div_iff₀ hn]
    linarith
  have havg4 : sumEffective rs / (rs.length : ℚ) ≤ 4 := by
    rw [div_le_iff₀ hn]
    linarith
  obtain ⟨ht0, htle⟩ := sumScores_bounds rs hwf
  have hop0 : 0 ≤ (if 0 < sumMaxes rs then sumTotals rs / sumMaxes rs * 100 else 0) := by
    split_ifs with h
    · exact mul_nonneg (div_nonneg ht0 h.le) (by norm_num)
    · exact le_refl 0
  have hop100 :
      (if 0 < sumMaxes rs then sumTotals rs / sumMaxes rs * 100 else 0) ≤ 100 := by
    split_ifs with h
    · rw [div_mul_eq_mul_div, div_le_iff₀ h]
      nlinarith
    · norm_num
  apply rnd1_bounds
  · linarith
  · linarith

/-- C7 witness: the bounds at a concrete well-formed one-record list. -/
theorem C7_witness :
    0 ≤ (buildReport [sampleA]).overall_percentage_score
    ∧ (buildReport [sampleA]).overall_percentage_score ≤ 100 :=
  C7_score_bounds [sampleA] (by decide) (by decide)

end ComplianceLLM
